import Mathlib

set_option linter.unusedVariables false
set_option maxRecDepth 4000

/-!
Verification of the weekend-planner agent pipeline.

This file gives a shallow embedding, in Lean, of the pure data-processing
core of the repository: the JSON-with-fallback routines of the five agent
stages (`src/agents/chat_agent.py`, `planner_agent.py`, `discovery_agent.py`,
`curator_agent.py`, `summarizer_agent.py`), the orchestration block of
`src/app.py`, the currency/budget tables of `src/tools/budget_estimator.py`,
and the venue-enrichment logic of `src/tools/crewai_tools.py` /
`src/tools/venue_scraper.py`.

Python dict values are modelled by the inductive type `Json`, dicts by
association lists, floats by `ℚ`, and the external reasoning service (an
LLM call) by the raw response string it returns (or `Option String` where
the Python code catches arbitrary exceptions from the call).  The Python
standard-library function `json.loads` is modelled by the executable
parser `jsonLoads` below; a response on which `jsonLoads` returns `none`
corresponds to a `json.JSONDecodeError` in the Python code.

All definitions are structurally recursive so that concrete runs evaluate
inside the kernel (`rfl` / `decide`).
-/

/-- Model of a Python/JSON value as produced by `json.loads`: `null` is
Python `None`, objects are insertion-ordered association lists (Python
dicts), numbers are modelled by `ℚ` (Python ints and floats). -/
inductive Json where
  | null
  | bool (b : Bool)
  | num (q : ℚ)
  | str (s : String)
  | arr (elems : List Json)
  | obj (fields : List (String × Json))

mutual

/-- Structural boolean equality on `Json`, modelling Python `==` on the
values produced by `json.loads` (used for the curator's `set` membership). -/
def jbeq : Json → Json → Bool
  | .null, .null => true
  | .bool a, .bool b => a == b
  | .num a, .num b => a == b
  | .str a, .str b => a == b
  | .arr a, .arr b => jbeqList a b
  | .obj a, .obj b => jbeqFields a b
  | _, _ => false

/-- Elementwise `jbeq` on lists of values. -/
def jbeqList : List Json → List Json → Bool
  | [], [] => true
  | a :: as_, b :: bs => jbeq a b && jbeqList as_ bs
  | _, _ => false

/-- Elementwise `jbeq` on association lists of fields. -/
def jbeqFields : List (String × Json) → List (String × Json) → Bool
  | [], [] => true
  | (k, v) :: as_, (l, w) :: bs => k == l && jbeq v w && jbeqFields as_ bs
  | _, _ => false

end

instance : BEq Json := ⟨jbeq⟩

/-- The character `{` (written via its code point to keep it out of source
literals). -/
def lbraceC : Char := Char.ofNat 123

/-- The character `}`. -/
def rbraceC : Char := Char.ofNat 125

/-- The character `"`. -/
def quoteC : Char := Char.ofNat 34

/-- JSON whitespace characters (the set skipped by Python `json.loads`). -/
def jsonWs (c : Char) : Bool :=
  c == ' ' || c == '\n' || c == '\t' || c == '\r'

/-- Drop leading JSON whitespace. -/
def skipWs (s : List Char) : List Char := s.dropWhile jsonWs

/-- Digit test. -/
def isDigitC (c : Char) : Bool := '0' ≤ c && c ≤ '9'

/-- Numeric value of a digit character. -/
def digitVal (c : Char) : Nat := c.toNat - '0'.toNat

/-- Fold a digit list into a natural number. -/
def digitsToNat (acc : Nat) : List Char → Nat
  | [] => acc
  | c :: rest => digitsToNat (acc * 10 + digitVal c) rest

/-- Parse a (non-negative) JSON number: digits with an optional decimal
fraction. -/
def parseNum (s : List Char) : Option (ℚ × List Char) :=
  match s.span isDigitC with
  | (intDigits, rest) =>
    if intDigits.isEmpty then none
    else
      match rest with
      | '.' :: rest2 =>
        match rest2.span isDigitC with
        | (fracDigits, rest3) =>
          if fracDigits.isEmpty then none
          else
            some (mkRat (digitsToNat (digitsToNat 0 intDigits) fracDigits)
                    (10 ^ fracDigits.length), rest3)
      | _ => some (mkRat (digitsToNat 0 intDigits) 1, rest)

mutual

/-- Parse one JSON value (fuel-indexed so that the recursion is structural
and kernel-evaluable).  Models the grammar accepted by Python
`json.loads` on the fragment used in this repository: `null`, `true`,
`false`, integers and decimal fractions, strings without escape
sequences, arrays, and objects. -/
def parseVal (fuel : Nat) (s : List Char) : Option (Json × List Char) :=
  match fuel with
  | 0 => none
  | fuel + 1 =>
    match skipWs s with
    | [] => none
    | c :: rest =>
      if c == quoteC then
        match parseStr fuel rest with
        | some (str, rest2) => some (.str str, rest2)
        | none => none
      else if c == '[' then
        match skipWs rest with
        | ']' :: rest2 => some (.arr [], rest2)
        | rest2 =>
          match parseArr fuel rest2 with
          | some (elems, rest3) => some (.arr elems, rest3)
          | none => none
      else if c == lbraceC then
        match skipWs rest with
        | d :: rest2 =>
          if d == rbraceC then some (.obj [], rest2)
          else
            match parseObj fuel (d :: rest2) with
            | some (fields, rest3) => some (.obj fields, rest3)
            | none => none
        | [] => none
      else if c == 'n' then
        match rest with
        | 'u' :: 'l' :: 'l' :: rest2 => some (.null, rest2)
        | _ => none
      else if c == 't' then
        match rest with
        | 'r' :: 'u' :: 'e' :: rest2 => some (.bool true, rest2)
        | _ => none
      else if c == 'f' then
        match rest with
        | 'a' :: 'l' :: 's' :: 'e' :: rest2 => some (.bool false, rest2)
        | _ => none
      else if c == '-' then
        match parseNum rest with
        | some (q, rest2) => some (.num (-q), rest2)
        | none => none
      else if isDigitC c then
        match parseNum (c :: rest) with
        | some (q, rest2) => some (.num q, rest2)
        | none => none
      else none

/-- Parse the elements of a non-empty JSON array (after the `[`). -/
def parseArr (fuel : Nat) (s : List Char) : Option (List Json × List Char) :=
  match fuel with
  | 0 => none
  | fuel + 1 =>
    match parseVal fuel s with
    | none => none
    | some (v, rest) =>
      match skipWs rest with
      | ',' :: rest2 =>
        match parseArr fuel rest2 with
        | some (vs, rest3) => some (v :: vs, rest3)
        | none => none
      | ']' :: rest2 => some ([v], rest2)
      | _ => none

/-- Parse the fields of a non-empty JSON object (after the `{`). -/
def parseObj (fuel : Nat) (s : List Char) :
    Option (List (String × Json) × List Char) :=
  match fuel with
  | 0 => none
  | fuel + 1 =>
    match skipWs s with
    | c :: rest =>
      if c == quoteC then
        match parseStr fuel rest with
        | none => none
        | some (key, rest2) =>
          match skipWs rest2 with
          | ':' :: rest3 =>
            match parseVal fuel rest3 with
            | none => none
            | some (v, rest4) =>
              match skipWs rest4 with
              | ',' :: rest5 =>
                match parseObj fuel rest5 with
                | some (fields, rest6) => some ((key, v) :: fields, rest6)
                | none => none
              | d :: rest5 =>
                if d == rbraceC then some ([(key, v)], rest5) else none
              | [] => none
          | _ => none
      else none
    | [] => none

/-- Parse the body of a JSON string (after the opening quote), up to the
closing quote.  Escape sequences are not modelled (no input in this
development contains one). -/
def parseStr (fuel : Nat) (s : List Char) : Option (String × List Char) :=
  match fuel with
  | 0 => none
  | fuel + 1 =>
    match s with
    | [] => none
    | c :: rest =>
      if c == quoteC then some ("", rest)
      else
        match parseStr fuel rest with
        | some (str, rest2) => some (String.mk (c :: str.toList), rest2)
        | none => none

end

/-- Model of Python `json.loads`: parse the whole string as one JSON value
(surrounding whitespace allowed); `none` corresponds to a
`json.JSONDecodeError`. -/
def jsonLoads (s : String) : Option Json :=
  let l := s.toList
  match parseVal (l.length + 1) l with
  | some (j, rest) => if (skipWs rest).isEmpty then some j else none
  | none => none

/-! String helpers: kernel-evaluable models of the Python `str` methods
used by the agents. -/

/-- Does `pat` occur at the head of `s`? (model of Python `startswith`). -/
def startsWithL : List Char → List Char → Bool
  | [], _ => true
  | _ :: _, [] => false
  | a :: as_, b :: bs => a == b && startsWithL as_ bs

/-- The suffix of `l` after the first occurrence of `sep`, or `none` when
`sep` does not occur (model of the remainder after Python
`split(sep)[0]`). -/
def afterFirst (sep : List Char) : List Char → Option (List Char)
  | [] => if startsWithL sep [] then some [] else none
  | c :: t =>
    if startsWithL sep (c :: t) then some ((c :: t).drop sep.length)
    else afterFirst sep t

/-- The prefix of `l` before the first occurrence of `sep` (the whole list
when `sep` does not occur): Python `split(sep)[0]`. -/
def beforeFirst (sep : List Char) : List Char → List Char
  | [] => []
  | c :: t =>
    if startsWithL sep (c :: t) then []
    else c :: beforeFirst sep t

/-- Substring test, model of the Python `in` operator on strings. -/
def containsSub (hay pat : String) : Bool :=
  (afterFirst pat.toList hay.toList).isSome

/-- Python `str.strip()`: drop leading and trailing whitespace. -/
def trimS (s : String) : String :=
  String.mk ((((s.toList.dropWhile jsonWs).reverse).dropWhile jsonWs).reverse)

/-- Python `str.lower()` (ASCII, which covers every string this code
lowercases). -/
def lowerS (s : String) : String := String.mk (s.toList.map Char.toLower)

/-- Python `"sep".join(lines)`. -/
def joinStr (sep : String) : List String → String
  | [] => ""
  | [x] => x
  | x :: xs => x ++ sep ++ joinStr sep xs

/-- The code-fence stripping block shared verbatim by `parse_user_input`
(`chat_agent.py` 90–95), `plan_search_strategy` (`planner_agent.py`
93–97) and `curate_activities` (`curator_agent.py` 111–115):

* if `"` ``` `"`+`"json"` occurs, take `split("` ``` `json")[1].split("` ``` `")[0].strip()`
  — i.e. the text after the first ```` ```json ```` up to the next ```` ``` ````,
  stripped (any later ```` ```json ```` occurrence itself starts with ```` ``` ````,
  so "up to the next fence" and "the second split piece" coincide);
* else if ```` ``` ```` occurs, the text between the first two ```` ``` ```` fences,
  stripped;
* else the string unchanged. -/
def stripFences (s : String) : String :=
  let l := s.toList
  let fj := "```json".toList
  let f := "```".toList
  if (afterFirst fj l).isSome then
    trimS (String.mk (beforeFirst f ((afterFirst fj l).getD [])))
  else if (afterFirst f l).isSome then
    trimS (String.mk (beforeFirst f ((afterFirst f l).getD [])))
  else s

/-! Accessors modelling Python dict operations on `Json` values. -/

/-- Python `d.get(k, default)` where `d` is known to be a dict: first
binding of `k` (dict keys are unique, so first = only), else the default. -/
def objGetD (fields : List (String × Json)) (k : String) (d : Json) : Json :=
  (List.lookup k fields).getD d

/-- Python `x.get(k, default)` on an arbitrary value: `none` models the
`AttributeError` Python raises when `x` is not a dict. -/
def pyGet (j : Json) (k : String) (d : Json) : Option Json :=
  match j with
  | .obj fields => some (objGetD fields k d)
  | _ => none

/-- Total variant of `pyGet` used where the surrounding code has already
established that the value is a dict of the stage data contract; on a
non-dict (where Python would raise) it returns the default. -/
def aGetD (j : Json) (k : String) (d : Json) : Json :=
  match j with
  | .obj fields => objGetD fields k d
  | _ => d

/-- The string content of a value expected to be a JSON string by the
stage data contract (non-strings, on which Python would raise in the
`str` methods applied next, are mapped to `""`). -/
def strOf (j : Json) : String :=
  match j with
  | .str s => s
  | _ => ""

/-- Rendering of a value inside a Python f-string.  Faithful on strings
(the only case the verified paths reach); scalars follow Python
(`True`/`False`/`None`, one-decimal floats via `floatRepr`), containers
are out of the modelled fragment. -/
def floatRepr (q : ℚ) : String :=
  let t : Int := q.num * 10 / (q.den : Int)
  toString (t / 10) ++ "." ++ toString ((t % 10).natAbs)

/-- See `floatRepr`. -/
def jShow : Json → String
  | .str s => s
  | .bool true => "True"
  | .bool false => "False"
  | .null => "None"
  | .num q => floatRepr q
  | .arr _ => ""
  | .obj _ => ""

/-- Python `int(q)` for the non-negative ratings this code truncates. -/
def pyInt (q : ℚ) : ℕ := q.num.toNat / q.den

/-! Stage 1 — Structured Extraction (`src/agents/chat_agent.py`,
`parse_user_input`, lines 77–106).  The reasoning-service call
`agent.execute_task(task)` is modelled by its string result `resp`. -/

/-- The fixed Stage-1 fallback record (`chat_agent.py` 101–106). -/
def chatFallback (user_input : String) : Json :=
  .obj [("date", .str "not specified"),
        ("location", .str "not specified"),
        ("interests", .arr [.str "general"]),
        ("context", .str user_input)]

/-- Model of `parse_user_input`: strip optional code fences from the
service response, `json.loads` it, and return the parsed value — whatever
its shape — or, exactly on a decode error, the fixed fallback record. -/
def parse_user_input (resp : String) (user_input : String) : Json :=
  match jsonLoads (stripFences resp) with
  | some j => j
  | none => chatFallback user_input

/-- The JSON shape Stage 1 declares in its instruction template (and the
spec's data model for `ParsedIntent`): a dict with the four fields
`date`, `location`, `interests`, `context`. -/
def hasDeclaredIntentShape (j : Json) : Bool :=
  match j with
  | .obj fields =>
    (List.lookup "date" fields).isSome &&
    (List.lookup "location" fields).isSome &&
    (List.lookup "interests" fields).isSome &&
    (List.lookup "context" fields).isSome
  | _ => false

/-! Stage 2 — Strategy (`src/agents/planner_agent.py`,
`plan_search_strategy`, lines 80–124). -/

/-- Membership of `i` in a Python list of strings, as in
`i in [a, b, c]` where `i` is a decoded JSON value. -/
def memStrList (i : Json) (l : List String) : Bool :=
  l.any (fun s => i == .str s)

/-- The Stage-2 keyword-to-category fallback applied to the decoded
`interests` value (`planner_agent.py` 103–118). -/
def plannerCategories (interests : List Json) : List String :=
  let c1 := if interests.any (fun i => memStrList i ["dinner", "restaurant", "food"])
            then ["restaurants"] else []
  let c2 := if interests.any (fun i => memStrList i ["movie", "film", "cinema"])
            then ["movies"] else []
  let c3 := if interests.any (fun i => memStrList i ["event", "concert", "festival"])
            then ["events"] else []
  let c4 := if interests.any (fun i => memStrList i ["outdoor", "park", "nature", "hiking"])
            then ["outdoor"] else []
  let categories := c1 ++ c2 ++ c3 ++ c4
  if categories.isEmpty then ["restaurants", "outdoor"] else categories

/-- Model of `plan_search_strategy`: return the service's parsed JSON, or
on a decode error the deterministic fallback strategy built from
`parsed_input.get('interests', [])`.  `none` models the `AttributeError` /
`TypeError` Python raises when `parsed_input` is not a dict or its
`interests` value is not a list. -/
def plan_search_strategy (resp : String) (parsed_input : Json) : Option Json :=
  match jsonLoads (stripFences resp) with
  | some j => some j
  | none =>
    match pyGet parsed_input "interests" (.arr []) with
    | some (.arr interests) =>
      let categories := plannerCategories interests
      some (.obj [("categories", .arr (categories.map .str)),
                  ("priority", .str (categories.headD "restaurants")),
                  ("reasoning", .str "Fallback strategy based on stated interests")])
    | _ => none

/-- The JSON shape Stage 2 declares in its instruction template (and the
spec's data model for `SearchStrategy`): a dict with the fields
`categories`, `priority`, `reasoning`. -/
def hasDeclaredStrategyShape (j : Json) : Bool :=
  match j with
  | .obj fields =>
    (List.lookup "categories" fields).isSome &&
    (List.lookup "priority" fields).isSome &&
    (List.lookup "reasoning" fields).isSome
  | _ => false

/-! Stage 3 — Discovery (`src/agents/discovery_agent.py`,
`discover_activities`, lines 80–159).  The `llm.call` is modelled by
`resp : Option String`: `none` models the call itself raising (the
`except Exception` branch, line 157), `some r` its response text. -/

/-- The synthetic single-candidate fallback of `discover_activities`
(lines 151–156); the rating literal in the source is the float `4.5`. -/
def discoveryFallback (location : Json) : Json :=
  .arr [.obj [("name", .str ("Explore " ++ jShow location)),
              ("type", .str "outdoor"),
              ("rating", .num (mkRat 45 10)),
              ("details", .str ("Discover the local attractions and activities in "
                                ++ jShow location))]]

/-- Model of `discover_activities`: the response is stripped
(`response.strip()`, line 134) and de-fenced before `json.loads`; a decode
error yields the synthetic "Explore location" candidate, any other
exception of the call yields `[]`. -/
def discover_activities (resp : Option String) (parsed_input : Json)
    (search_strategy : Json) : Option Json :=
  match pyGet parsed_input "location" (.str "New York") with
  | none => none
  | some location =>
    match resp with
    | none => some (.arr [])
    | some r =>
      match jsonLoads (stripFences (trimS r)) with
      | some j => some j
      | none => some (discoveryFallback location)

/-! Stage 4 — Curation (`src/agents/curator_agent.py`, `curate_activities`,
lines 92–145). -/

/-- The sort key `x.get('rating', 0)` of the curator fallback (line 126);
candidates outside the data contract (non-dicts, or a non-numeric rating,
on which Python would raise when comparing) are keyed 0. -/
def jRatingKey (a : Json) : ℚ :=
  match aGetD a "rating" (.num 0) with
  | .num q => q
  | _ => 0

/-- The value `activity.get('type')` tracked in the curator's
`types_seen` set (Python's `None` default is JSON `null`). -/
def jTypeKey (a : Json) : Json := aGetD a "type" .null

/-- Insert a candidate into an already rating-descending list, after every
element of greater-or-equal rating: composing this over the list is the
unique stable descending sort, i.e. exactly Python
`sorted(xs, key=lambda x: x.get('rating', 0), reverse=True)` (line 124). -/
def insertDesc (a : Json) : List Json → List Json
  | [] => [a]
  | b :: t =>
    if jRatingKey b ≤ jRatingKey a then a :: b :: t
    else b :: insertDesc a t

/-- Stable descending sort by `jRatingKey`; see `insertDesc`. -/
def sortByRatingDesc : List Json → List Json
  | [] => []
  | a :: t => insertDesc a (sortByRatingDesc t)

/-- The curator fallback's selection loop (lines 131–140): scan the sorted
candidates, appending one when its type is not yet in `types_seen` or
fewer than 3 are selected, recording its type, and returning as soon as 5
are selected. -/
def curateLoop : List Json → List Json → List Json → List Json
  | [], selected, _ => selected
  | a :: rest, selected, seen =>
    if !(seen.contains (jTypeKey a)) || selected.length < 3 then
      if 5 ≤ (selected ++ [a]).length then selected ++ [a]
      else curateLoop rest (selected ++ [a]) (jTypeKey a :: seen)
    else curateLoop rest selected seen

/-- The curator fallback's selected list (`curator_agent.py` 119–141). -/
def curateFallback (discovered : List Json) : List Json :=
  curateLoop (sortByRatingDesc discovered) [] []

/-- The fixed result of the empty-candidate guard (lines 97–101). -/
def curateEmptyResult : Json :=
  .obj [("selected", .arr []),
        ("curation_notes", .str "No activities found to curate.")]

/-- Model of `curate_activities`.  The second component records whether
the reasoning service was invoked: the empty-candidate guard returns
before `create_curator_agent`/`execute_task` are reached, every other
path invokes the service (its response is `resp`). -/
def curate_activities (resp : String) (discovered_activities : List Json)
    (parsed_input : Json) : Json × Bool :=
  if discovered_activities.isEmpty then
    (curateEmptyResult, false)
  else
    match jsonLoads (stripFences resp) with
    | some j => (j, true)
    | none =>
      (.obj [("selected", .arr (curateFallback discovered_activities)),
             ("curation_notes", .str "Curated based on ratings and variety")],
       true)

/-- Reference curation greedy scan, written from the specification's
words (spec section 4.4): scan the rating-descending candidates in order,
append one exactly when its type is new or fewer than 3 have been
selected, and stop once 5 are selected or the input is exhausted. -/
def refGreedy (count : Nat) (seen : List Json) : List Json → List Json
  | [] => []
  | a :: rest =>
    if 5 ≤ count then []
    else if !(seen.contains (jTypeKey a)) || count < 3 then
      a :: refGreedy (count + 1) (jTypeKey a :: seen) rest
    else refGreedy count seen rest

/-- Reference curation algorithm from the specification: sort by rating
descending (no rating = rating 0), then the greedy type-diversity scan. -/
def refCurate (candidates : List Json) : List Json :=
  refGreedy 0 [] (sortByRatingDesc candidates)

/-- A candidate within the stage data contract: a dict whose `rating`
field, when present, is a number (the fragment on which this model agrees
with Python, which would raise on anything else). -/
def wfCandidate (j : Json) : Bool :=
  match j with
  | .obj fields =>
    match List.lookup "rating" fields with
    | some (.num _) => true
    | none => true
    | some _ => false
  | _ => false

/-! Stage 5 — Presentation (`src/agents/summarizer_agent.py`,
`generate_itinerary` lines 79–112 and `generate_simple_itinerary` lines
115–165).  The source file stores its emoji as the double-encoded
(mojibake) character sequences below; they are transcribed here exactly
as the file has them. -/

/-- Python `s * n` (string repetition). -/
def repeatStr (n : Nat) (s : String) : String :=
  match n with
  | 0 => ""
  | n + 1 => s ++ repeatStr n s

/-- The header prefix of line 128 before " Your Weekend Plan for". -/
def partyMark : String := "ğŸ‰"

/-- The `emoji_map` of lines 134–140 plus the `.get` default of line 141. -/
def emojiFor (t : Json) : String :=
  if t == .str "restaurant" then "ğŸ½ï¸"
  else if t == .str "outdoor" then "ğŸŒ³"
  else if t == .str "movie" then "ğŸ¬"
  else if t == .str "event" then "ğŸ«"
  else if t == .str "weather" then "ğŸŒ¤ï¸"
  else "ğŸ“"

/-- The star glyph of line 147. -/
def starMark : String := "â­"

/-- The tip prefix of line 161. -/
def tipMark : String := "ğŸ’¡"

/-- The closing line of line 163. -/
def closingLine : String := "\nHave a great time! ğŸŠ"

/-- The fixed message returned when no activities were selected
(`generate_itinerary` lines 90–99). -/
def noActivitiesMsg : String :=
  "\nI couldn\x27t find enough activities to create an itinerary for your request. \nThis might be because:\n- The location wasn\x27t recognized\n- API keys aren\x27t configured\n- No activities matched your criteria\n\nPlease try again with a different location or check your API configuration.\n"

/-- The per-activity lines of `generate_simple_itinerary` (lines
133–157), numbering from 1: name line with emoji, optional rating line
(`if rating and rating > 0`, stars repeated `int(rating)` times),
optional details line truncated at 150 characters, then a blank line. -/
def activityLines (i : Nat) : List Json → List String
  | [] => []
  | a :: rest =>
    let nameLine := toString i ++ ". " ++ emojiFor (aGetD a "type" (.str ""))
                    ++ " " ++ jShow (aGetD a "name" (.str "Unknown"))
    let ratingLines :=
      match aGetD a "rating" (.num 0) with
      | .num q =>
        if 0 < q then
          ["   Rating: " ++ repeatStr (pyInt q) starMark
            ++ " (" ++ floatRepr q ++ "/5)"]
        else []
      | _ => []
    let details := strOf (aGetD a "details" (.str ""))
    let detailLines :=
      if details == "" then []
      else if 150 < details.toList.length then
        ["   " ++ String.mk (details.toList.take 150) ++ "..."]
      else ["   " ++ details]
    (nameLine :: ratingLines ++ detailLines ++ [""]) ++ activityLines (i + 1) rest

/-- Model of `generate_simple_itinerary`: the deterministic no-LLM
fallback itinerary.  `none` models the exceptions Python would raise on
inputs outside the stage data contract (non-dict arguments or a non-list
`selected`). -/
def generate_simple_itinerary (curated_data : Json) (parsed_input : Json) :
    Option String :=
  match pyGet parsed_input "location" (.str "your area"),
        pyGet parsed_input "date" (.str "your chosen date"),
        pyGet curated_data "selected" (.arr []) with
  | some location, some date, some selectedV =>
    match selectedV with
    | .arr [] =>
      some "No activities found. Please try a different location or criteria."
    | .arr selected =>
      let header := partyMark ++ " Your Weekend Plan for " ++ jShow date
                    ++ " in " ++ jShow location
      let sepLine := String.mk (List.replicate 50 '=')
      let notes := strOf (aGetD curated_data "curation_notes" (.str ""))
      let noteLines := if notes == "" then [] else [tipMark ++ " Tip: " ++ notes]
      some (joinStr "\n" (([header, sepLine, ""] ++ activityLines 1 selected)
              ++ noteLines ++ [closingLine]))
    | _ => none
  | _, _, _ => none

/-- Model of `generate_itinerary`: the empty-selection guard returns the
fixed message before any service call; otherwise the service result is
returned as-is, and on any exception of the service call (`resp = none` —
this stage falls back on any exception, not just decode errors) the
simple fallback itinerary is produced. -/
def generate_itinerary (resp : Option String) (curated_data : Json)
    (parsed_input : Json) : Option String :=
  match pyGet curated_data "selected" (.arr []) with
  | some (.arr []) => some noActivitiesMsg
  | some (.arr _) =>
    match resp with
    | some s => some s
    | none => generate_simple_itinerary curated_data parsed_input
  | _ => none

/-! The orchestrator (`src/app.py`, lines 506–561): the five stage calls
in order, each feeding the next. -/

/-- Terminal state of one pipeline run. -/
inductive RunState where
  | done
  | error
  deriving DecidableEq

/-- Model of the `app.py` pipeline block: Chat → Planner → Discovery →
Curator → Summarizer, each stage's reasoning-service interaction given by
its response (`resp1`, `resp2`, `resp4 : String`; `resp3`, `resp5 :
Option String` where `none` models the call raising).  `none` overall
models an exception escaping to the `except` handler of line 558. -/
def runApp (resp1 resp2 : String) (resp3 : Option String) (resp4 : String)
    (resp5 : Option String) (user_input : String) : Option String := do
  let parsed_input := parse_user_input resp1 user_input
  let search_strategy ← plan_search_strategy resp2 parsed_input
  let discovered ← discover_activities resp3 parsed_input search_strategy
  let activities ← match discovered with
    | .arr l => some l
    | _ => none
  let curated := (curate_activities resp4 activities parsed_input).1
  generate_itinerary resp5 curated parsed_input

/-- The terminal state of a run: `Done` when every stage returned and the
itinerary was appended, `Error` when an exception reached the run-level
handler. -/
def runAppState (resp1 resp2 : String) (resp3 : Option String) (resp4 : String)
    (resp5 : Option String) (user_input : String) : RunState :=
  match runApp resp1 resp2 resp3 resp4 resp5 user_input with
  | some _ => .done
  | none => .error

/-! The run-level error handling of `src/app.py` (lines 513–562): the
session's `pipeline_status` dict and what the `except` handler does to
it. -/

/-- Stage status values used by the UI status dict. -/
inductive StStatus where
  | pending
  | active
  | completed
  | error
  deriving DecidableEq, BEq

/-- The five stage names, in the insertion order of the
`pipeline_status` dict (lines 323–329). -/
def pipelineStageNames : List String :=
  ["Chat", "Planner", "Discovery", "Curator", "Summarizer"]

/-- The status dict at the moment the stage-`k` call raises: stages
before `k` completed, stage `k` active, the rest pending (this is exactly
how lines 514–547 have updated the dict when call `k` raises). -/
def statusesAtFailure (k : Nat) : List (String × StStatus) :=
  pipelineStageNames.enum.map (fun p =>
    (p.2, if p.1 < k then .completed
          else if p.1 = k then .active
          else .pending))

/-- The `except` handler's status update (line 560):
`pipeline_status[list(pipeline_status.keys())[0]] = 'error'` — the FIRST
key of the dict, whatever it is, is set to error. -/
def markFirstKeyError : List (String × StStatus) → List (String × StStatus)
  | [] => []
  | (n, _) :: t => (n, .error) :: t

/-- Model of one run of the `app.py` block in which the stage-`k` call
raises an unclassified exception: the resulting status dict after the
`except` handler, and the appended itinerary (`none`: the handler appends
nothing, so partial results are discarded). -/
def appRunFailure (k : Nat) : List (String × StStatus) × Option String :=
  (markFirstKeyError (statusesAtFailure k), none)

/-- The first stage whose status is pending or active (the stage at which
the run actually stopped). -/
def firstPendingOrActive (l : List (String × StStatus)) : Option String :=
  (l.find? (fun p => p.2 == .active || p.2 == .pending)).map Prod.fst

/-- The stages a status list marks as `error`. -/
def errorStages (l : List (String × StStatus)) : List String :=
  (l.filter (fun p => p.2 == .error)).map Prod.fst

/-! Budget estimation (`src/tools/budget_estimator.py`). -/

/-- The `LOCATION_CURRENCY` table (lines 10–50), keys in source order. -/
def LOCATION_CURRENCY : List (String × (String × String)) :=
  [("new york", ("$", "USD")),
   ("los angeles", ("$", "USD")),
   ("chicago", ("$", "USD")),
   ("houston", ("$", "USD")),
   ("phoenix", ("$", "USD")),
   ("philadelphia", ("$", "USD")),
   ("san antonio", ("$", "USD")),
   ("san diego", ("$", "USD")),
   ("dallas", ("$", "USD")),
   ("san jose", ("$", "USD")),
   ("austin", ("$", "USD")),
   ("seattle", ("$", "USD")),
   ("atlanta", ("$", "USD")),
   ("miami", ("$", "USD")),
   ("boston", ("$", "USD")),
   ("portland", ("$", "USD")),
   ("denver", ("$", "USD")),
   ("san francisco", ("$", "USD")),
   ("las vegas", ("$", "USD")),
   ("london", ("£", "GBP")),
   ("paris", ("€", "EUR")),
   ("berlin", ("€", "EUR")),
   ("rome", ("€", "EUR")),
   ("madrid", ("€", "EUR")),
   ("amsterdam", ("€", "EUR")),
   ("tokyo", ("¥", "JPY")),
   ("osaka", ("¥", "JPY")),
   ("sydney", ("A$", "AUD")),
   ("melbourne", ("A$", "AUD")),
   ("toronto", ("C$", "CAD")),
   ("vancouver", ("C$", "CAD")),
   ("mumbai", ("₹", "INR")),
   ("delhi", ("₹", "INR")),
   ("bangalore", ("₹", "INR")),
   ("dubai", ("AED", "AED")),
   ("singapore", ("S$", "SGD"))]

/-- Model of `get_currency_for_location` (lines 53–64):
`LOCATION_CURRENCY.get(location.lower().strip(), ('$', 'USD'))`. -/
def get_currency_for_location (location : String) : String × String :=
  (List.lookup (trimS (lowerS location)) LOCATION_CURRENCY).getD ("$", "USD")

/-- One cost estimate: category name and cost range per person. -/
structure CostInfo where
  category : String
  min_cost : ℚ
  max_cost : ℚ
  avg_cost : ℚ

/-- The `COST_ESTIMATES['restaurant']` sub-table (lines 69–74), with the
`.get(category, moderate)` default of line 123. -/
def restaurantCostRange (category : String) : ℚ × ℚ :=
  if category == "budget" then (10, 20)
  else if category == "moderate" then (20, 40)
  else if category == "upscale" then (40, 80)
  else if category == "fine_dining" then (80, 150)
  else (20, 40)

/-- Does one of the keywords occur in the (lowercased) details text —
Python `any(word in details_lower for word in [...])`. -/
def anyKeyword (details_lower : String) (words : List String) : Bool :=
  words.any (fun w => containsSub details_lower w)

/-- Model of `estimate_restaurant_cost` (lines 94–130): pick a category
by keyword, else by rating threshold, then look up the cost range. -/
def estimate_restaurant_cost (name : String) (details : String) (rating : ℚ) :
    CostInfo :=
  let details_lower := lowerS details
  let category :=
    if anyKeyword details_lower
        ["upscale", "fine dining", "michelin", "tasting menu", "prix fixe"] then
      "fine_dining"
    else if anyKeyword details_lower
        ["upscale", "elevated", "contemporary", "refined"] then
      "upscale"
    else if anyKeyword details_lower ["casual", "food hall", "quick", "counter"] then
      "budget"
    else if mkRat 45 10 ≤ rating then "upscale"
    else if 4 ≤ rating then "moderate"
    else "budget"
  let range := restaurantCostRange category
  ⟨category, range.1, range.2, (range.1 + range.2) / 2⟩

/-- The `COST_ESTIMATES['movie']` sub-table (lines 75–79). -/
def movieCostRange (category : String) : ℚ × ℚ :=
  if category == "premium" then (18, 25)
  else if category == "matinee" then (8, 12)
  else (12, 18)

/-- The `COST_ESTIMATES['outdoor']` sub-table (lines 80–84). -/
def outdoorCostRange (category : String) : ℚ × ℚ :=
  if category == "free" then (0, 0)
  else if category == "admission" then (5, 15)
  else (20, 50)

/-- The `COST_ESTIMATES['event']` sub-table (lines 85–90). -/
def eventCostRange (category : String) : ℚ × ℚ :=
  if category == "free" then (0, 0)
  else if category == "concert" then (30, 100)
  else if category == "ticketed" then (15, 50)
  else (0, 0)

/-- Model of `estimate_activity_cost` (lines 133–187) for the non-restaurant
types (movie, outdoor, event, and the default branch). -/
def estimate_activity_cost (activity_type : String) (name : String)
    (details : String) : CostInfo :=
  let details_lower := lowerS details
  if activity_type == "movie" then
    let category :=
      if containsSub details_lower "imax" || containsSub details_lower "3d"
          || containsSub details_lower "premium" then "premium"
      else if containsSub details_lower "matinee"
          || containsSub details_lower "afternoon" then "matinee"
      else "evening"
    let range := movieCostRange category
    ⟨category, range.1, range.2, (range.1 + range.2) / 2⟩
  else if activity_type == "outdoor" then
    let category :=
      if anyKeyword details_lower ["free", "trail", "walk", "hike", "park"] then
        "free"
      else if anyKeyword details_lower
          ["admission", "ticket", "entry fee", "botanical", "garden"] then
        "admission"
      else "activity"
    let range := outdoorCostRange category
    ⟨category, range.1, range.2, (range.1 + range.2) / 2⟩
  else if activity_type == "event" then
    let category :=
      if anyKeyword details_lower ["free", "no admission", "no charge"] then
        "free"
      else if anyKeyword details_lower ["concert", "band", "festival with tickets"] then
        "concert"
      else if containsSub details_lower "ticket"
          || containsSub details_lower "admission" then "ticketed"
      else "free"
    let range := eventCostRange category
    ⟨category, range.1, range.2, (range.1 + range.2) / 2⟩
  else
    ⟨"moderate", 15, 35, (15 + 35) / 2⟩

/-- One entry of the budget breakdown (lines 233–243). -/
structure BreakdownItem where
  name : String
  itemType : String
  category : String
  min_per_person : ℚ
  max_per_person : ℚ
  total_min : ℚ
  total_max : ℚ
  currency_symbol : String
  currency_code : String

/-- The result record of `analyze_itinerary_budget` (lines 245–257). -/
structure BudgetAnalysis where
  group_size : ℕ
  location : Option String
  currency_symbol : String
  currency_code : String
  total_min : ℚ
  total_max : ℚ
  total_avg : ℚ
  per_person_min : ℚ
  per_person_max : ℚ
  per_person_avg : ℚ
  breakdown : List BreakdownItem

/-- The per-activity accumulation loop of `analyze_itinerary_budget`
(lines 209–243): estimate each activity's cost, multiply by the group
size for restaurant/movie/event activities whose category does not
contain "free", and accumulate totals alongside the breakdown. -/
def budgetLoop (group_size : ℕ) (cur : String × String) :
    List Json → ℚ × ℚ × List BreakdownItem
  | [] => (0, 0, [])
  | a :: rest =>
    let activity_type := strOf (aGetD a "type" (.str "restaurant"))
    let name := jShow (aGetD a "name" (.str "Unknown"))
    let details := strOf (aGetD a "details" (.str ""))
    let rating :=
      match aGetD a "rating" (.num 4) with
      | .num q => q
      | _ => 4
    let cost_info :=
      if activity_type == "restaurant" then
        estimate_restaurant_cost name details rating
      else
        estimate_activity_cost activity_type name details
    let multiplied :=
      (activity_type == "restaurant" || activity_type == "movie"
        || activity_type == "event")
      && !(containsSub cost_info.category "free")
    let total_min_cost :=
      if multiplied then cost_info.min_cost * group_size else cost_info.min_cost
    let total_max_cost :=
      if multiplied then cost_info.max_cost * group_size else cost_info.max_cost
    let (rmin, rmax, rbd) := budgetLoop group_size cur rest
    (total_min_cost + rmin, total_max_cost + rmax,
      ⟨name, activity_type, cost_info.category, cost_info.min_cost,
        cost_info.max_cost, total_min_cost, total_max_cost, cur.1, cur.2⟩ :: rbd)

/-- Model of `analyze_itinerary_budget` (lines 190–257).  The Python
`location` parameter defaults to `None` and the guard
`if location else ('$', 'USD')` also treats the empty string as falsy. -/
def analyze_itinerary_budget (activities : List Json) (group_size : ℕ)
    (location : Option String) : BudgetAnalysis :=
  let cur :=
    match location with
    | some l => if l == "" then ("$", "USD") else get_currency_for_location l
    | none => ("$", "USD")
  let r := budgetLoop group_size cur activities
  { group_size := group_size
    location := location
    currency_symbol := cur.1
    currency_code := cur.2
    total_min := r.1
    total_max := r.2.1
    total_avg := (r.1 + r.2.1) / 2
    per_person_min := if 0 < group_size then r.1 / group_size else r.1
    per_person_max := if 0 < group_size then r.2.1 / group_size else r.2.1
    per_person_avg := if 0 < group_size then ((r.1 + r.2.1) / 2) / group_size
                      else (r.1 + r.2.1) / 2
    breakdown := r.2.2 }

/-! Venue enrichment (`src/tools/venue_scraper.py`, `get_venue_details`
lines 161–197, and `src/tools/crewai_tools.py`,
`enrich_venues_with_addresses` lines 112–168). -/

/-- What `scrape_google_search` returns when it found an address (the
function returns `None` otherwise — line 104): the address, and a phone
number when one matched.  Its `website` key is never set and stays
`None`. -/
structure GoogleScrape where
  address : String
  phone : Option String

/-- The details dict produced by `get_venue_details`. -/
structure VenueDetails where
  name : String
  address : Option String
  phone : Option String
  website : Option String

/-- Model of `get_venue_details`: the two network scrapes are inputs
(`google`, and the Yelp-found address `yelp`); Google data wins, Yelp is
consulted only for restaurants, and when neither found an address every
detail field is `None` — the initial `'Address not found'` placeholder of
line 175 is overwritten on every return path. -/
def get_venue_details (google : Option GoogleScrape) (yelp : Option String)
    (venue_name : String) (venue_type : String) : VenueDetails :=
  match google with
  | some g => ⟨venue_name, some g.address, g.phone, none⟩
  | none =>
    if venue_type == "restaurant" then
      match yelp with
      | some a => ⟨venue_name, some a, none, none⟩
      | none => ⟨venue_name, none, none, none⟩
    else ⟨venue_name, none, none, none⟩

/-- A venue dict: insertion-ordered fields, unique keys. -/
abbrev Venue : Type := List (String × Json)

/-- Python dict assignment `d[k] = v`: replace the value at the first
(only) binding of `k`, keeping its position, or append a new binding. -/
def dictSet (d : Venue) (k : String) (v : Json) : Venue :=
  match d with
  | [] => [(k, v)]
  | (k1, v1) :: t =>
    if k1 == k then (k1, v) :: t else (k1, v1) :: dictSet t k v

/-- The per-venue merge step of `enrich_venues_with_addresses` (lines
149–161): copy the venue, then set `address` — and `phone`/`website` when
found — only when the lookup produced an address; otherwise add nothing. -/
def enrichOne (details : VenueDetails) (venue : Venue) : Venue :=
  match details.address with
  | none => venue
  | some a =>
    let v1 := dictSet venue "address" (.str a)
    let v2 := match details.phone with
      | some p => dictSet v1 "phone" (.str p)
      | none => v1
    match details.website with
    | some w => dictSet v2 "website" (.str w)
    | none => v2

/-- Model of `enrich_venues_with_addresses` (lines 131–163): look up each
venue by `venue.get('name', '')` / `venue.get('type', 'restaurant')` and
merge the found details (the inter-request `time.sleep` has no effect on
the result and is not modelled).  The lookup — `get_venue_details`
applied to that venue's scrape outcome — is passed in as a function. -/
def enrich_venues_with_addresses (lookup : String → String → String → VenueDetails)
    (venues : List Venue) (location : String) : List Venue :=
  venues.map (fun venue =>
    enrichOne
      (lookup (strOf (objGetD venue "name" (.str "")))
              location
              (strOf (objGetD venue "type" (.str "restaurant"))))
      venue)

/-! Theorems. -/

/-- Claim C5: for the empty candidate list, `curate_activities` returns
exactly the fixed guard record and never invokes the reasoning service
(the invocation flag is `false` and the result does not depend on the
service response or the parsed input), so the guard is atomic and
deterministic. -/
theorem claim5_empty_guard :
    ∀ (resp : String) (parsed_input : Json),
      curate_activities resp [] parsed_input
        = (.obj [("selected", .arr []),
                 ("curation_notes", .str "No activities found to curate.")],
           false) :=
  fun _ _ => rfl

/-- Claim C7: the currency table maps "Seattle" to ("$", "USD") and
"Paris" to ("€", "EUR"), and every location whose normalised form is not
a key of `LOCATION_CURRENCY` gets the default ("$", "USD"). -/
theorem claim7_currency_lookup :
    get_currency_for_location "Seattle" = ("$", "USD") ∧
    get_currency_for_location "Paris" = ("€", "EUR") ∧
    ∀ location : String,
      List.lookup (trimS (lowerS location)) LOCATION_CURRENCY = none →
      get_currency_for_location location = ("$", "USD") := by
  refine ⟨rfl, rfl, fun location h => ?_⟩
  unfold get_currency_for_location
  rw [h]
  rfl

/-- Witness for `claim7_currency_lookup`: "Gotham" is not in the table
and maps to the default. -/
theorem claim7_currency_lookup_witness :
    List.lookup (trimS (lowerS "Gotham")) LOCATION_CURRENCY = none ∧
    get_currency_for_location "Gotham" = ("$", "USD") :=
  ⟨rfl, claim7_currency_lookup.2.2 "Gotham" rfl⟩

/-- Claim C2 counterexample: the response `"[]"` is valid JSON but is not
the declared intent shape, yet `parse_user_input` returns the parsed
empty list rather than the fixed fallback record — the code replaces the
response only on a JSON decode error, not on a shape mismatch. -/
theorem claim2_counterexample :
    hasDeclaredIntentShape ((jsonLoads (stripFences "[]")).getD .null) = false ∧
    parse_user_input "[]" "plan my weekend" = .arr [] ∧
    parse_user_input "[]" "plan my weekend" ≠ chatFallback "plan my weekend" :=
  ⟨rfl, rfl, fun h => Json.noConfusion h⟩

/-- Claim C2 (amended): for every Stage-1 service response whose
fence-stripped text fails JSON decoding, `parse_user_input` returns
exactly the fixed fallback record (with the original request as context);
responses that decode as JSON are returned as parsed, without shape
validation. -/
theorem claim2_decode_fallback :
    ∀ (resp user_input : String),
      jsonLoads (stripFences resp) = none →
      parse_user_input resp user_input = chatFallback user_input := by
  intro resp user_input h
  unfold parse_user_input
  rw [h]

/-- Witness for `claim2_decode_fallback` at the undecodable response
"oops". -/
theorem claim2_decode_fallback_witness :
    jsonLoads (stripFences "oops") = none ∧
    parse_user_input "oops" "hi" = chatFallback "hi" :=
  ⟨rfl, claim2_decode_fallback "oops" "hi" rfl⟩

/-- Reference Stage-2 fallback mapping, written from the claim's own
words over the interest strings: "dinner"/"restaurant"/"food" add
"restaurants"; "movie"/"film"/"cinema" add "movies";
"event"/"concert"/"festival" add "events";
"outdoor"/"park"/"nature"/"hiking" add "outdoor"; if no category matches,
the result is ["restaurants", "outdoor"]. -/
def refPlanCategories (interests : List String) : List String :=
  let c1 := if interests.any (fun i => i == "dinner" || i == "restaurant" || i == "food")
            then ["restaurants"] else []
  let c2 := if interests.any (fun i => i == "movie" || i == "film" || i == "cinema")
            then ["movies"] else []
  let c3 := if interests.any (fun i => i == "event" || i == "concert" || i == "festival")
            then ["events"] else []
  let c4 := if interests.any (fun i => i == "outdoor" || i == "park" || i == "nature" || i == "hiking")
            then ["outdoor"] else []
  let categories := c1 ++ c2 ++ c3 ++ c4
  if categories.isEmpty then ["restaurants", "outdoor"] else categories

/-- On string-valued interests the code's membership test agrees with the
plain string test. -/
theorem memStrList_str (a : String) (ws : List String) :
    memStrList (.str a) ws = ws.any (fun s => a == s) := by
  unfold memStrList
  induction ws with
  | nil => rfl
  | cons w ws ih => simp only [List.any_cons, ih]; rfl

/-- Pushing the `Json.str` coercion through the code's `any`-membership
test. -/
theorem any_memStrList_map (interests : List String) (ws : List String) :
    ((interests.map Json.str).any (fun i => memStrList i ws))
      = interests.any (fun i => ws.any (fun s => i == s)) := by
  induction interests with
  | nil => rfl
  | cons a t ih => simp only [List.map_cons, List.any_cons, ih, memStrList_str]

/-- The code's category fallback on string interests equals the
reference mapping. -/
theorem plannerCategories_map_str (interests : List String) :
    plannerCategories (interests.map .str) = refPlanCategories interests := by
  unfold plannerCategories refPlanCategories
  simp only [any_memStrList_map, List.any_cons, List.any_nil, Bool.or_false,
    Bool.or_assoc]

/-- Claim C6 counterexample: the Stage-2 response `"[]"` is valid JSON
but is not the declared strategy shape (fields `categories`, `priority`,
`reasoning`), yet `plan_search_strategy` returns the parsed empty list
as-is instead of the deterministic keyword-to-category mapping — the
code applies the mapping only on a JSON decode error, not on a shape
mismatch. -/
theorem claim6_counterexample :
    hasDeclaredStrategyShape ((jsonLoads (stripFences "[]")).getD .null)
        = false ∧
    plan_search_strategy "[]" (.obj [("interests", .arr [.str "hiking"])])
        = some (.arr []) ∧
    plan_search_strategy "[]" (.obj [("interests", .arr [.str "hiking"])])
      ≠ some (.obj
          [("categories", .arr [.str "outdoor"]),
           ("priority", .str "outdoor"),
           ("reasoning", .str "Fallback strategy based on stated interests")]) :=
  ⟨rfl, rfl, fun h => Json.noConfusion (Option.some.inj h)⟩

/-- Claim C6 (amended): whenever the Stage-2 service output fails JSON
decoding, `plan_search_strategy` returns the deterministic
keyword-to-category mapping of the intent's interests, with priority the
first category of the resulting list; in particular interests =
["hiking"] yields a category list containing "outdoor".  (A response
that decodes as JSON is returned as parsed, without shape validation —
see `claim6_counterexample`.) -/
theorem claim6_planner_fallback :
    ∀ (interests : List String) (resp : String),
      jsonLoads (stripFences resp) = none →
      plan_search_strategy resp (.obj [("interests", .arr (interests.map .str))])
        = some (.obj
            [("categories", .arr ((refPlanCategories interests).map .str)),
             ("priority", .str ((refPlanCategories interests).headD "restaurants")),
             ("reasoning", .str "Fallback strategy based on stated interests")])
      ∧ (refPlanCategories ["hiking"]).contains "outdoor" = true := by
  intro interests resp h
  refine ⟨?_, rfl⟩
  unfold plan_search_strategy
  rw [h]
  have hget : pyGet (.obj [("interests", .arr (interests.map .str))])
      "interests" (.arr []) = some (.arr (interests.map .str)) := by
    simp [pyGet, objGetD, List.lookup]
  rw [hget]
  simp only [plannerCategories_map_str]

/-- Witness for `claim6_planner_fallback` at interests = ["hiking"]. -/
theorem claim6_planner_fallback_witness :
    jsonLoads (stripFences "oh no") = none ∧
    (plan_search_strategy "oh no" (.obj [("interests", .arr [.str "hiking"])])
      = some (.obj
          [("categories", .arr [.str "outdoor"]),
           ("priority", .str "outdoor"),
           ("reasoning", .str "Fallback strategy based on stated interests")])
     ∧ (refPlanCategories ["hiking"]).contains "outdoor" = true) :=
  ⟨rfl, claim6_planner_fallback ["hiking"] "oh no" rfl⟩

/-- Insertion preserves length. -/
theorem length_insertDesc (a : Json) (l : List Json) :
    (insertDesc a l).length = l.length + 1 := by
  induction l with
  | nil => rfl
  | cons b t ih =>
    unfold insertDesc
    by_cases h : jRatingKey b ≤ jRatingKey a
    · simp [h]
    · simp [h, ih]

/-- Sorting preserves length. -/
theorem length_sortByRatingDesc (l : List Json) :
    (sortByRatingDesc l).length = l.length := by
  induction l with
  | nil => rfl
  | cons a t ih =>
    unfold sortByRatingDesc
    rw [length_insertDesc, ih, List.length_cons]

/-- Once five are selected the reference scan selects nothing more. -/
theorem refGreedy_stop (l : List Json) (count : Nat) (seen : List Json)
    (h : 5 ≤ count) : refGreedy count seen l = [] := by
  cases l with
  | nil => rfl
  | cons a rest => unfold refGreedy; simp [h]

/-- The source's selection loop, started from any partial selection of
fewer than five, extends it by exactly what the reference scan selects. -/
theorem curateLoop_eq_refGreedy (l : List Json) :
    ∀ (sel seen : List Json), sel.length < 5 →
      curateLoop l sel seen = sel ++ refGreedy sel.length seen l := by
  induction l with
  | nil => intro sel seen h; simp [curateLoop, refGreedy]
  | cons a rest ih =>
    intro sel seen h5
    unfold curateLoop refGreedy
    have hn5 : ¬ (5 ≤ sel.length) := Nat.not_le.mpr h5
    by_cases hc : (!(seen.contains (jTypeKey a)) || decide (sel.length < 3)) = true
    · simp only [hc, if_true, hn5, if_false, List.length_append,
        List.length_singleton]
      by_cases hful : 5 ≤ sel.length + 1
      · have : refGreedy (sel.length + 1) (jTypeKey a :: seen) rest = [] :=
          refGreedy_stop rest _ _ hful
        simp [hful, this]
      · have h5' : (sel ++ [a]).length < 5 := by
          simp only [List.length_append, List.length_singleton]
          omega
        rw [if_neg hful, ih (sel ++ [a]) (jTypeKey a :: seen) h5']
        simp [List.append_assoc]
      
    · simp [hc, hn5, ih sel seen h5]

/-- The selection loop never exceeds five entries. -/
theorem curateLoop_length_le (l : List Json) :
    ∀ sel seen, sel.length < 5 → (curateLoop l sel seen).length ≤ 5 := by
  induction l with
  | nil => intro sel seen h; simpa [curateLoop] using Nat.le_of_lt h
  | cons a rest ih =>
    intro sel seen h5
    unfold curateLoop
    by_cases hc : (!(seen.contains (jTypeKey a)) || decide (sel.length < 3)) = true
    · by_cases hful : 5 ≤ (sel ++ [a]).length
      · rw [if_pos hc, if_pos hful]
        simp only [List.length_append, List.length_singleton]
        omega
      · rw [if_pos hc, if_neg hful]
        apply ih
        simp only [List.length_append, List.length_singleton] at hful ⊢
        omega
    · simpa [hc] using ih sel seen h5

/-- The selection loop never drops already-selected entries. -/
theorem curateLoop_length_mono (l : List Json) :
    ∀ sel seen, sel.length ≤ (curateLoop l sel seen).length := by
  induction l with
  | nil => intro sel seen; simp [curateLoop]
  | cons a rest ih =>
    intro sel seen
    unfold curateLoop
    by_cases hc : (!(seen.contains (jTypeKey a)) || decide (sel.length < 3)) = true
    · by_cases hful : 5 ≤ (sel ++ [a]).length
      · rw [if_pos hc, if_pos hful]
        simp only [List.length_append, List.length_singleton]
        omega
      · have hrec := ih (sel ++ [a]) (jTypeKey a :: seen)
        simp only [List.length_append, List.length_singleton] at hrec
        rw [if_pos hc, if_neg hful]
        omega
    · simpa [hc] using ih sel seen

/-- The selection loop reaches at least `min 3 (already + input)` entries. -/
theorem curateLoop_length_ge (l : List Json) :
    ∀ sel seen, sel.length < 5 →
      min 3 (sel.length + l.length) ≤ (curateLoop l sel seen).length := by
  induction l with
  | nil => intro sel seen h; simp [curateLoop]
  | cons a rest ih =>
    intro sel seen h5
    by_cases h3 : 3 ≤ sel.length
    · have := curateLoop_length_mono (a :: rest) sel seen
      omega
    · unfold curateLoop
      have hdec : (decide (sel.length < 3)) = true := by
        simp only [decide_eq_true_eq]
        omega
      have hc : (!(seen.contains (jTypeKey a)) || decide (sel.length < 3)) = true := by
        rw [hdec, Bool.or_true]
      by_cases hful : 5 ≤ (sel ++ [a]).length
      · simp only [List.length_append, List.length_singleton] at hful
        omega
      · have hrec := ih (sel ++ [a]) (jTypeKey a :: seen)
          (by simp only [List.length_append, List.length_singleton]; omega)
        rw [if_pos hc, if_neg hful]
        simp only [List.length_append, List.length_singleton] at hrec
        simp only [List.length_cons]
        omega

/-- The curation fallback result, stated once for reuse below. -/
theorem curate_fallback_result (candidates : List Json) (parsed_input : Json)
    (resp : String) (hne : candidates ≠ [])
    (h : jsonLoads (stripFences resp) = none) :
    (curate_activities resp candidates parsed_input).1
      = .obj [("selected", .arr (curateFallback candidates)),
              ("curation_notes", .str "Curated based on ratings and variety")] := by
  have hemp : candidates.isEmpty = false := by
    cases candidates with
    | nil => exact absurd rfl hne
    | cons a t => rfl
  unfold curate_activities
  rw [hemp]
  simp only [Bool.false_eq_true, if_false, h]

/-- Claim C3: on every non-empty candidate list the curation fallback
equals the deterministic reference algorithm (rating-descending stable
sort, then the greedy type-diversity scan stopping at five), and the
fallback output depends only on the candidate list — two runs on the
same candidates always yield the same ordered selection. -/
theorem claim3_curation_fallback_deterministic :
    ∀ (candidates : List Json) (parsed_input : Json) (resp : String),
      candidates ≠ [] →
      jsonLoads (stripFences resp) = none →
      candidates.all wfCandidate = true →
      (curate_activities resp candidates parsed_input).1
        = .obj [("selected", .arr (refCurate candidates)),
                ("curation_notes", .str "Curated based on ratings and variety")]
      ∧ (∀ (parsed2 : Json) (resp2 : String),
          jsonLoads (stripFences resp2) = none →
          (curate_activities resp2 candidates parsed2).1
            = (curate_activities resp candidates parsed_input).1) := by
  intro candidates parsed_input resp hne h hwf
  have hfall : curateFallback candidates = refCurate candidates := by
    unfold curateFallback refCurate
    have := curateLoop_eq_refGreedy (sortByRatingDesc candidates) [] []
      (by simp)
    simpa using this
  constructor
  · rw [curate_fallback_result candidates parsed_input resp hne h, hfall]
  · intro parsed2 resp2 h2
    rw [curate_fallback_result candidates parsed_input resp hne h,
      curate_fallback_result candidates parsed2 resp2 hne h2]

/-- A sample in-contract candidate used by the curation witnesses. -/
def sampleCandidate : Json :=
  .obj [("name", .str "Lake Trail"), ("type", .str "outdoor"),
        ("rating", .num 4)]

/-- Witness for `claim3_curation_fallback_deterministic` on a one-element
candidate list. -/
theorem claim3_curation_fallback_deterministic_witness :
    ([sampleCandidate] ≠ ([] : List Json)) ∧
    jsonLoads (stripFences "nope") = none ∧
    [sampleCandidate].all wfCandidate = true ∧
    ((curate_activities "nope" [sampleCandidate] .null).1
        = .obj [("selected", .arr (refCurate [sampleCandidate])),
                ("curation_notes", .str "Curated based on ratings and variety")]
      ∧ (∀ (parsed2 : Json) (resp2 : String),
          jsonLoads (stripFences resp2) = none →
          (curate_activities resp2 [sampleCandidate] parsed2).1
            = (curate_activities "nope" [sampleCandidate] .null).1)) :=
  ⟨by simp, rfl, rfl,
    claim3_curation_fallback_deterministic [sampleCandidate] .null "nope"
      (by simp) rfl rfl⟩

/-- Claim C4: on every non-empty candidate list the curation fallback
selects at most 5 and at least `min 3 (number of candidates)` entries. -/
theorem claim4_curation_fallback_bounds :
    ∀ (candidates : List Json) (parsed_input : Json) (resp : String),
      candidates ≠ [] →
      jsonLoads (stripFences resp) = none →
      candidates.all wfCandidate = true →
      (curate_activities resp candidates parsed_input).1
        = .obj [("selected", .arr (curateFallback candidates)),
                ("curation_notes", .str "Curated based on ratings and variety")]
      ∧ (curateFallback candidates).length ≤ 5
      ∧ min 3 candidates.length ≤ (curateFallback candidates).length := by
  intro candidates parsed_input resp hne h hwf
  refine ⟨curate_fallback_result candidates parsed_input resp hne h, ?_, ?_⟩
  · unfold curateFallback
    exact curateLoop_length_le (sortByRatingDesc candidates) [] [] (by simp)
  · unfold curateFallback
    have := curateLoop_length_ge (sortByRatingDesc candidates) [] [] (by simp)
    simpa [length_sortByRatingDesc] using this

/-- Witness for `claim4_curation_fallback_bounds` on a one-element
candidate list. -/
theorem claim4_curation_fallback_bounds_witness :
    ([sampleCandidate] ≠ ([] : List Json)) ∧
    jsonLoads (stripFences "still nope") = none ∧
    [sampleCandidate].all wfCandidate = true ∧
    ((curate_activities "still nope" [sampleCandidate] .null).1
        = .obj [("selected", .arr (curateFallback [sampleCandidate])),
                ("curation_notes", .str "Curated based on ratings and variety")]
      ∧ (curateFallback [sampleCandidate]).length ≤ 5
      ∧ min 3 ([sampleCandidate] : List Json).length
          ≤ (curateFallback [sampleCandidate]).length) :=
  ⟨by simp, rfl, rfl,
    claim4_curation_fallback_bounds [sampleCandidate] .null "still nope"
      (by simp) rfl rfl⟩

/-- Claim C8 counterexample: when the Planner-stage call (stage index 1)
raises, the run does terminate with no itinerary, but the stage the
handler marks as `error` is "Chat" — the first key of the status dict —
while the first pending-or-active stage (where the run actually stopped)
is "Planner"; the reported tag is not the stage where the run stopped. -/
theorem claim8_counterexample :
    errorStages (appRunFailure 1).1 = ["Chat"] ∧
    firstPendingOrActive (statusesAtFailure 1) = some "Planner" ∧
    "Chat" ≠ "Planner" ∧
    (appRunFailure 1).2 = none := by
  refine ⟨rfl, rfl, ?_, rfl⟩
  decide

/-- Claim C8 (amended): when an unclassified exception escapes the
stage-`k` call, the orchestrator catches it at the run boundary, the run
terminates with no itinerary appended (partial results are discarded),
and the handler marks the FIRST stage of the status dict ("Chat") as
`error` regardless of `k`; the stage where the run stopped merely keeps
its `active` status (for `k > 0`), so the error tag does not name the
stopping stage. -/
theorem claim8_error_marking :
    ∀ k : ℕ, k < 5 →
      ((appRunFailure k).1.map Prod.fst = pipelineStageNames) ∧
      errorStages (appRunFailure k).1 = ["Chat"] ∧
      (appRunFailure k).2 = none ∧
      (0 < k →
        (appRunFailure k).1.getD k ("", .pending)
          = (pipelineStageNames.getD k "", .active)) := by
  intro k hk
  interval_cases k <;> exact ⟨rfl, rfl, rfl, by decide⟩

/-- Witness for `claim8_error_marking` at a crash in the Curator stage
(index 3). -/
theorem claim8_error_marking_witness :
    (3 < 5) ∧
    (((appRunFailure 3).1.map Prod.fst = pipelineStageNames) ∧
      errorStages (appRunFailure 3).1 = ["Chat"] ∧
      (appRunFailure 3).2 = none ∧
      (0 < 3 →
        (appRunFailure 3).1.getD 3 ("", .pending)
          = (pipelineStageNames.getD 3 "", .active))) :=
  ⟨by decide, claim8_error_marking 3 (by decide)⟩

/-- The scenario input of the specification's end-to-end test. -/
def scenarioInput : String :=
  "Plan something fun for this Saturday in Seattle, include restaurants and outdoor activities"

/-- A reasoning-service response that fails JSON decoding at every stage
(forcing each stage onto its fallback path). -/
def failingResp : String := "SERVICE UNAVAILABLE"

/-- The itinerary the pipeline produces on the scenario input with every
reasoning-service call forced to fail. -/
def scenarioItinerary : Option String :=
  runApp failingResp failingResp (some failingResp) failingResp none
    scenarioInput

/-- Claim C1 counterexample: with every reasoning-service call forced to
fail on the scenario input, the pipeline does terminate in `Done` with an
itinerary — but the Stage-1 fallback has already replaced the date and
location by "not specified", so the fallback header is NOT instantiated
with "this Saturday" / "Seattle": the produced text does not contain
"Weekend Plan for this Saturday in Seattle". -/
theorem claim1_counterexample :
    runAppState failingResp failingResp (some failingResp) failingResp none
        scenarioInput = .done ∧
    containsSub (scenarioItinerary.getD "")
        "Weekend Plan for this Saturday in Seattle" = false := by
  exact ⟨rfl, rfl⟩

/-- Claim C1 (amended): on the scenario input with every
reasoning-service call forced to fail, the pipeline terminates in the
`Done` state and produces non-empty itinerary text containing the literal
fallback header pattern "Weekend Plan for date in location" — but
instantiated with the Stage-1 fallback values, i.e. date "not specified"
and location "not specified". -/
theorem claim1_degraded_run :
    runAppState failingResp failingResp (some failingResp) failingResp none
        scenarioInput = .done ∧
    scenarioItinerary.getD "" ≠ "" ∧
    containsSub (scenarioItinerary.getD "")
        "Weekend Plan for not specified in not specified" = true := by
  refine ⟨rfl, ?_, rfl⟩
  decide

/-- Setting a key makes it readable. -/
theorem lookup_dictSet_self (d : Venue) (k : String) (v : Json) :
    List.lookup k (dictSet d k v) = some v := by
  induction d with
  | nil => simp [dictSet, List.lookup]
  | cons p t ih =>
    obtain ⟨k1, v1⟩ := p
    by_cases h : k1 = k
    · subst h
      simp [dictSet, List.lookup]
    · have hb : (k1 == k) = false := beq_eq_false_iff_ne.mpr h
      have hb2 : (k == k1) = false := beq_eq_false_iff_ne.mpr (Ne.symm h)
      simp [dictSet, hb, hb2, List.lookup, ih]

/-- Setting a key leaves every other key's value unchanged. -/
theorem lookup_dictSet_other (d : Venue) (k k2 : String) (v : Json)
    (h : k2 ≠ k) : List.lookup k2 (dictSet d k v) = List.lookup k2 d := by
  induction d with
  | nil =>
    have hb : (k2 == k) = false := beq_eq_false_iff_ne.mpr h
    simp [dictSet, List.lookup, hb]
  | cons p t ih =>
    obtain ⟨k1, v1⟩ := p
    by_cases h1 : k1 = k
    · subst h1
      have hb : (k2 == k1) = false := beq_eq_false_iff_ne.mpr h
      simp [dictSet, List.lookup, hb]
    · have hb : (k1 == k) = false := beq_eq_false_iff_ne.mpr h1
      cases hq : (k2 == k1) <;> simp [dictSet, hb, List.lookup, hq, ih]

/-- Setting a key leaves the presence of every other key unchanged. -/
theorem keysContains_dictSet_other (d : Venue) (k k2 : String) (v : Json)
    (h : k2 ≠ k) :
    ((dictSet d k v).map Prod.fst).contains k2
      = (d.map Prod.fst).contains k2 := by
  induction d with
  | nil =>
    have hb : (k2 == k) = false := beq_eq_false_iff_ne.mpr h
    simp only [dictSet, List.map_cons, List.map_nil, List.contains_cons, hb,
      Bool.false_or]
  | cons p t ih =>
    obtain ⟨k1, v1⟩ := p
    by_cases h1 : k1 = k
    · subst h1
      simp only [dictSet, beq_self_eq_true, if_true, List.map_cons,
        List.contains_cons]
    · have hb : (k1 == k) = false := beq_eq_false_iff_ne.mpr h1
      simp only [dictSet, hb, Bool.false_eq_true, if_false, List.map_cons,
        List.contains_cons, ih]

/-- When the lookup found no address the venue passes through unchanged —
no placeholder field is added. -/
theorem enrichOne_no_address (d : VenueDetails) (venue : Venue)
    (h : d.address = none) : enrichOne d venue = venue := by
  unfold enrichOne
  rw [h]

/-- When the lookup found an address the merged venue carries exactly
that address value. -/
theorem enrichOne_found_address (d : VenueDetails) (venue : Venue)
    (a : String) (h : d.address = some a) :
    objGetD (enrichOne d venue) "address" .null = .str a := by
  unfold enrichOne objGetD
  rw [h]
  cases hp : d.phone <;> cases hw : d.website <;>
    simp [lookup_dictSet_self,
      lookup_dictSet_other _ _ _ _ (by decide : ("address" : String) ≠ "phone"),
      lookup_dictSet_other _ _ _ _ (by decide : ("address" : String) ≠ "website")]

/-- When the lookup found an address, every field other than
`address`/`phone`/`website` keeps its value and its presence. -/
theorem enrichOne_found_other (d : VenueDetails) (venue : Venue)
    (a : String) (k : String) (h : d.address = some a) (h1 : k ≠ "address")
    (h2 : k ≠ "phone") (h3 : k ≠ "website") :
    objGetD (enrichOne d venue) k .null = objGetD venue k .null
    ∧ ((enrichOne d venue).map Prod.fst).contains k
        = (venue.map Prod.fst).contains k := by
  unfold enrichOne objGetD
  rw [h]
  cases hp : d.phone <;> cases hw : d.website <;>
    exact ⟨by simp only [lookup_dictSet_other _ _ _ _ h1,
             lookup_dictSet_other _ _ _ _ h2,
             lookup_dictSet_other _ _ _ _ h3],
           by simp only [keysContains_dictSet_other _ _ _ _ h1,
             keysContains_dictSet_other _ _ _ _ h2,
             keysContains_dictSet_other _ _ _ _ h3]⟩

/-- Reading a mapped list at an in-range index. -/
theorem map_getD_venue (f : Venue → Venue) (l : List Venue) (i : ℕ)
    (h : i < l.length) : (l.map f).getD i [] = f (l.getD i []) := by
  induction l generalizing i with
  | nil => simp at h
  | cons a t ih =>
    cases i with
    | zero => rfl
    | succ n =>
      simp only [List.map_cons, List.getD_cons_succ]
      exact ih n (by simpa using h)

/-- A lookup whose scrape finds the address "123 New St". -/
def lookupFound : String → String → String → VenueDetails :=
  fun n _ _ => ⟨n, some "123 New St", none, none⟩

/-- A venue that already has an address field. -/
def venueWithAddress : Venue :=
  [("name", .str "Cafe One"), ("address", .str "9 Old Rd")]

/-- Claim C9 counterexample: a venue that already carries an `address`
field ("9 Old Rd") has that value OVERWRITTEN ("123 New St") when the
lookup finds an address — the pre-existing field value of the input venue
is not preserved unchanged, contradicting the claim's frame condition. -/
theorem claim9_counterexample :
    enrich_venues_with_addresses lookupFound [venueWithAddress] "Seattle"
      = [[("name", .str "Cafe One"), ("address", .str "123 New St")]] ∧
    objGetD venueWithAddress "address" .null = .str "9 Old Rd" ∧
    objGetD ((enrich_venues_with_addresses lookupFound [venueWithAddress]
        "Seattle").getD 0 []) "address" .null = .str "123 New St" ∧
    (Json.str "9 Old Rd") ≠ .str "123 New St" := by
  refine ⟨rfl, rfl, rfl, ?_⟩
  intro h
  exact absurd (Json.str.inj h) (by decide)

/-- Claim C9 (amended): enrichment keeps the venues in order and count;
a venue whose lookup found no address is returned completely unchanged
(in particular no placeholder `address`/`phone`/`website` is ever added);
when the lookup found an address, the venue's `address` field is set to
exactly the found value — overwriting a pre-existing value — while every
field other than `address`/`phone`/`website` keeps its value and its
presence; and `get_venue_details` reports no address exactly when the
Google scrape failed and (for restaurants) the Yelp scrape failed too,
its initial "Address not found" placeholder being overwritten on every
path. -/
theorem claim9_enrichment_frame :
    ∀ (lookup : String → String → String → VenueDetails)
      (venues : List Venue) (location : String),
      (enrich_venues_with_addresses lookup venues location).length
          = venues.length
      ∧ (∀ i, i < venues.length →
          (lookup (strOf (objGetD (venues.getD i []) "name" (.str "")))
              location
              (strOf (objGetD (venues.getD i []) "type"
                (.str "restaurant")))).address = none →
          (enrich_venues_with_addresses lookup venues location).getD i []
            = venues.getD i [])
      ∧ (∀ i a, i < venues.length →
          (lookup (strOf (objGetD (venues.getD i []) "name" (.str "")))
              location
              (strOf (objGetD (venues.getD i []) "type"
                (.str "restaurant")))).address = some a →
          objGetD ((enrich_venues_with_addresses lookup venues location).getD
              i []) "address" .null = .str a
          ∧ (∀ k, k ≠ "address" → k ≠ "phone" → k ≠ "website" →
              objGetD ((enrich_venues_with_addresses lookup venues
                  location).getD i []) k .null
                = objGetD (venues.getD i []) k .null
              ∧ (((enrich_venues_with_addresses lookup venues
                    location).getD i []).map Prod.fst).contains k
                = ((venues.getD i []).map Prod.fst).contains k))
      ∧ (∀ (google : Option GoogleScrape) (yelp : Option String)
          (n t : String),
          (get_venue_details google yelp n t).address = none
            ↔ (google = none ∧ (t = "restaurant" → yelp = none))) := by
  intro lookup venues location
  have hmap : ∀ i, i < venues.length →
      (enrich_venues_with_addresses lookup venues location).getD i []
        = enrichOne
            (lookup (strOf (objGetD (venues.getD i []) "name" (.str "")))
              location
              (strOf (objGetD (venues.getD i []) "type" (.str "restaurant"))))
            (venues.getD i []) := by
    intro i hi
    unfold enrich_venues_with_addresses
    exact map_getD_venue _ venues i hi
  refine ⟨by simp [enrich_venues_with_addresses], ?_, ?_, ?_⟩
  · intro i hi h
    rw [hmap i hi]
    exact enrichOne_no_address _ _ h
  · intro i a hi h
    constructor
    · rw [hmap i hi]
      exact enrichOne_found_address _ _ a h
    · intro k h1 h2 h3
      rw [hmap i hi]
      exact enrichOne_found_other _ _ a k h h1 h2 h3
  · intro google yelp n t
    cases google with
    | some gd => simp [get_venue_details]
    | none =>
      by_cases ht : t = "restaurant"
      · subst ht
        cases yelp <;> simp [get_venue_details]
      · have hb : (t == "restaurant") = false := beq_eq_false_iff_ne.mpr ht
        cases yelp <;> simp [get_venue_details, hb, ht]

/-- A lookup that never finds anything, for the C9 witness. -/
def lookupNone : String → String → String → VenueDetails :=
  fun n _ _ => ⟨n, none, none, none⟩

/-- Witness for `claim9_enrichment_frame`: a no-find lookup leaves the
venue untouched. -/
theorem claim9_enrichment_frame_witness :
    (0 < ([venueWithAddress] : List Venue).length) ∧
    (lookupNone
        (strOf (objGetD (([venueWithAddress] : List Venue).getD 0 []) "name"
          (.str "")))
        "X"
        (strOf (objGetD (([venueWithAddress] : List Venue).getD 0 []) "type"
          (.str "restaurant")))).address = none ∧
    (enrich_venues_with_addresses lookupNone [venueWithAddress] "X").getD 0 []
      = ([venueWithAddress] : List Venue).getD 0 [] :=
  ⟨by decide, rfl,
    (claim9_enrichment_frame lookupNone [venueWithAddress] "X").2.1 0
      (by decide) rfl⟩

/-- Every range in the restaurant cost table satisfies min ≤ max. -/
theorem restaurantCostRange_le (category : String) :
    (restaurantCostRange category).1 ≤ (restaurantCostRange category).2 := by
  unfold restaurantCostRange
  split_ifs <;> norm_num

/-- Every range in the movie cost table satisfies min ≤ max. -/
theorem movieCostRange_le (category : String) :
    (movieCostRange category).1 ≤ (movieCostRange category).2 := by
  unfold movieCostRange
  split_ifs <;> norm_num

/-- Every range in the outdoor cost table satisfies min ≤ max. -/
theorem outdoorCostRange_le (category : String) :
    (outdoorCostRange category).1 ≤ (outdoorCostRange category).2 := by
  unfold outdoorCostRange
  split_ifs <;> norm_num

/-- Every range in the event cost table satisfies min ≤ max. -/
theorem eventCostRange_le (category : String) :
    (eventCostRange category).1 ≤ (eventCostRange category).2 := by
  unfold eventCostRange
  split_ifs <;> norm_num

/-- Every restaurant cost estimate satisfies min ≤ max. -/
theorem restaurant_cost_min_le_max (name details : String) (rating : ℚ) :
    (estimate_restaurant_cost name details rating).min_cost
      ≤ (estimate_restaurant_cost name details rating).max_cost :=
  restaurantCostRange_le _

/-- Every non-restaurant cost estimate satisfies min ≤ max. -/
theorem activity_cost_min_le_max (activity_type name details : String) :
    (estimate_activity_cost activity_type name details).min_cost
      ≤ (estimate_activity_cost activity_type name details).max_cost := by
  unfold estimate_activity_cost
  split_ifs
  · exact movieCostRange_le _
  · exact outdoorCostRange_le _
  · exact eventCostRange_le _
  · norm_num

/-- The accumulation loop: its totals are exactly the sums of the
breakdown entries' totals, and its minimum never exceeds its maximum. -/
theorem budgetLoop_totals (group_size : ℕ) (cur : String × String)
    (activities : List Json) :
    (budgetLoop group_size cur activities).1
        = ((budgetLoop group_size cur activities).2.2.map
            (fun b => b.total_min)).sum
    ∧ (budgetLoop group_size cur activities).2.1
        = ((budgetLoop group_size cur activities).2.2.map
            (fun b => b.total_max)).sum
    ∧ (budgetLoop group_size cur activities).1
        ≤ (budgetLoop group_size cur activities).2.1 := by
  induction activities with
  | nil => exact ⟨by simp [budgetLoop], by simp [budgetLoop], le_refl 0⟩
  | cons a rest ih =>
    obtain ⟨ih1, ih2, ih3⟩ := ih
    unfold budgetLoop
    refine ⟨?_, ?_, ?_⟩
    · simp only [List.map_cons, List.sum_cons, ih1]
    · simp only [List.map_cons, List.sum_cons, ih2]
    · have hcost :
          (if strOf (aGetD a "type" (.str "restaurant")) == "restaurant" then
              estimate_restaurant_cost (jShow (aGetD a "name" (.str "Unknown")))
                (strOf (aGetD a "details" (.str "")))
                (match aGetD a "rating" (.num 4) with
                  | .num q => q
                  | _ => 4)
            else
              estimate_activity_cost (strOf (aGetD a "type" (.str "restaurant")))
                (jShow (aGetD a "name" (.str "Unknown")))
                (strOf (aGetD a "details" (.str "")))).min_cost
            ≤ (if strOf (aGetD a "type" (.str "restaurant")) == "restaurant" then
                estimate_restaurant_cost (jShow (aGetD a "name" (.str "Unknown")))
                  (strOf (aGetD a "details" (.str "")))
                  (match aGetD a "rating" (.num 4) with
                    | .num q => q
                    | _ => 4)
              else
                estimate_activity_cost (strOf (aGetD a "type" (.str "restaurant")))
                  (jShow (aGetD a "name" (.str "Unknown")))
                  (strOf (aGetD a "details" (.str "")))).max_cost := by
        split_ifs
        · exact restaurant_cost_min_le_max _ _ _
        · exact activity_cost_min_le_max _ _ _
      have hmul : ∀ b : Bool, ∀ cmin cmax : ℚ, cmin ≤ cmax →
          (if b then cmin * (group_size : ℚ) else cmin)
            ≤ (if b then cmax * (group_size : ℚ) else cmax) := by
        intro b cmin cmax hle
        cases b with
        | false => simpa using hle
        | true =>
          simp only [if_true]
          exact mul_le_mul_of_nonneg_right hle (by positivity)
      exact add_le_add (hmul _ _ _ hcost) ih3

/-- Claim C10: for every activity list, group size ≥ 1 and any location,
the budget analysis's `total_min` and `total_max` are exactly the sums of
the breakdown entries' `total_min`/`total_max`, and `total_min ≤
total_max` — the reported cost range is never inverted and accounts
exactly for the per-activity breakdown. -/
theorem claim10_budget_totals :
    ∀ (activities : List Json) (group_size : ℕ) (location : Option String),
      1 ≤ group_size →
      (analyze_itinerary_budget activities group_size location).total_min
          = ((analyze_itinerary_budget activities group_size
              location).breakdown.map (fun b => b.total_min)).sum
      ∧ (analyze_itinerary_budget activities group_size location).total_max
          = ((analyze_itinerary_budget activities group_size
              location).breakdown.map (fun b => b.total_max)).sum
      ∧ (analyze_itinerary_budget activities group_size location).total_min
          ≤ (analyze_itinerary_budget activities group_size
              location).total_max := by
  intro activities group_size location hgs
  obtain ⟨h1, h2, h3⟩ := budgetLoop_totals group_size
    (match location with
      | some l => if l == "" then ("$", "USD") else get_currency_for_location l
      | none => ("$", "USD"))
    activities
  exact ⟨h1, h2, h3⟩

/-- Witness for `claim10_budget_totals` on the empty itinerary with a
group of one. -/
theorem claim10_budget_totals_witness :
    (1 ≤ 1) ∧
    ((analyze_itinerary_budget [] 1 none).total_min
        = ((analyze_itinerary_budget [] 1 none).breakdown.map
            (fun b => b.total_min)).sum
      ∧ (analyze_itinerary_budget [] 1 none).total_max
          = ((analyze_itinerary_budget [] 1 none).breakdown.map
              (fun b => b.total_max)).sum
      ∧ (analyze_itinerary_budget [] 1 none).total_min
          ≤ (analyze_itinerary_budget [] 1 none).total_max) :=
  ⟨le_refl 1, claim10_budget_totals [] 1 none (le_refl 1)⟩
